import Mathlib

/-!
A shallow embedding of the tmcController protocol engine
(`src/tmcController.hpp`) and proofs about it.

The libftdi1 transport is modelled as an oracle (`Ftdi`): one field per
transport operation, holding the raw return code that operation would
produce.  Read data is modelled as a list of `ReadResult`s, one per call
to `ftdi_read_data`.  Session state (`TmcState`) carries the `m_opened`,
`m_connected` and `m_chipid` members.  Every modelled member function
returns its `int` result plus the updated state and the list of
transport calls it performed (`TCall`), so "no I/O happened" is the
trace being `[]`.  The read loop of `TMCC_READ_RESPONSE` can fail to
terminate when reads keep returning zero bytes; command functions that
read are therefore `Option`-valued, with `none` meaning the loop never
exits.  C++ floats are modelled as exact rationals; request payload
bytes are not recorded in the trace (no claim inspects them), only the
byte count handed to `ftdi_write_data`.
-/

deriving instance DecidableEq for Except

namespace TmcC

/-- A transport call, as seen by the libftdi1 layer.  `write n` records the
byte count passed to `ftdi_write_data`; `read` records one call to
`ftdi_read_data`. -/
inductive TCall where
  | openDev
  | closeDev
  | readChipId
  | setBaud
  | setLine
  | sleepPre
  | flush
  | sleepPost
  | reset
  | setFlow
  | setRTS
  | sleepChan
  | write (n : Nat)
  | read
deriving DecidableEq, Repr

/-- The transport oracle: the raw code each libftdi1 operation would return
(negative means failure), plus whether each `sleep_for` completes without
throwing. -/
structure Ftdi where
  openRes : Int
  closeRes : Int
  chipidRes : Int
  chipidVal : Nat
  baudRes : Int
  lineRes : Int
  preSleepOk : Bool
  flushRes : Int
  postSleepOk : Bool
  resetRes : Int
  flowRes : Int
  rtsRes : Int
  cmdFlushRes : Int
  writeRes : Int
  chanSleepOk : Bool
deriving DecidableEq, Repr

/-- The session state: the `m_opened`, `m_connected` and `m_chipid` members
of `tmcController`. -/
structure TmcState where
  m_opened : Bool
  m_connected : Bool
  m_chipid : Nat
deriving DecidableEq, Repr

/-- `tmcController::open` (tmcController.hpp lines 978-997): calls
`ftdi_usb_open_desc_index`; on failure sets `m_opened = false` and returns
the raw code, on success sets `m_opened = true` and returns 0. -/
def openDevice (t : Ftdi) (s : TmcState) : Int × TmcState × List TCall :=
  if t.openRes < 0 then (t.openRes, { s with m_opened := false }, [TCall.openDev])
  else (0, { s with m_opened := true }, [TCall.openDev])

/-- `tmcController::close` (lines 1022-1043): trivial success when not
opened; otherwise `ftdi_usb_close`, raw code on failure (state untouched),
on success clears `m_opened` and `m_connected`. -/
def closeDevice (t : Ftdi) (s : TmcState) : Int × TmcState × List TCall :=
  if s.m_opened = false then (0, s, [])
  else if t.closeRes < 0 then (t.closeRes, s, [TCall.closeDev])
  else (0, { s with m_opened := false, m_connected := false }, [TCall.closeDev])

/-- The chip-id-onwards steps of `tmcController::connect` (lines 1061-1154):
read chip id, set baud rate, set line properties, pre-flush sleep, tcio
flush, post-flush sleep, usb reset, flow control, RTS; each failure returns
at once with its documented offset, success sets `m_connected`. -/
def connectSteps (t : Ftdi) (s : TmcState) (tr0 : List TCall) : Int × TmcState × List TCall :=
  if t.chipidRes < 0 then (-20 + t.chipidRes, s, tr0 ++ [TCall.readChipId])
  else
  if t.baudRes < 0 then
    (-30 + t.baudRes, { s with m_chipid := t.chipidVal },
      tr0 ++ [TCall.readChipId, TCall.setBaud])
  else
  if t.lineRes < 0 then
    (-40 + t.lineRes, { s with m_chipid := t.chipidVal },
      tr0 ++ [TCall.readChipId, TCall.setBaud, TCall.setLine])
  else
  if t.preSleepOk = false then
    (-49, { s with m_chipid := t.chipidVal },
      tr0 ++ [TCall.readChipId, TCall.setBaud, TCall.setLine, TCall.sleepPre])
  else
  if t.flushRes < 0 then
    (-50 + t.flushRes, { s with m_chipid := t.chipidVal },
      tr0 ++ [TCall.readChipId, TCall.setBaud, TCall.setLine, TCall.sleepPre, TCall.flush])
  else
  if t.postSleepOk = false then
    (-59, { s with m_chipid := t.chipidVal },
      tr0 ++ [TCall.readChipId, TCall.setBaud, TCall.setLine, TCall.sleepPre, TCall.flush,
        TCall.sleepPost])
  else
  if t.resetRes < 0 then
    (-60 + t.resetRes, { s with m_chipid := t.chipidVal },
      tr0 ++ [TCall.readChipId, TCall.setBaud, TCall.setLine, TCall.sleepPre, TCall.flush,
        TCall.sleepPost, TCall.reset])
  else
  if t.flowRes < 0 then
    (-70 + t.flowRes, { s with m_chipid := t.chipidVal },
      tr0 ++ [TCall.readChipId, TCall.setBaud, TCall.setLine, TCall.sleepPre, TCall.flush,
        TCall.sleepPost, TCall.reset, TCall.setFlow])
  else
  if t.rtsRes < 0 then
    (-80 + t.rtsRes, { s with m_chipid := t.chipidVal },
      tr0 ++ [TCall.readChipId, TCall.setBaud, TCall.setLine, TCall.sleepPre, TCall.flush,
        TCall.sleepPost, TCall.reset, TCall.setFlow, TCall.setRTS])
  else
    (0, { s with m_chipid := t.chipidVal, m_connected := true },
      tr0 ++ [TCall.readChipId, TCall.setBaud, TCall.setLine, TCall.sleepPre, TCall.flush,
        TCall.sleepPost, TCall.reset, TCall.setFlow, TCall.setRTS])

/-- `tmcController::connect` (lines 1046-1155): opens first when not yet
opened (failure there is passed through raw), then runs `connectSteps`. -/
def connect (t : Ftdi) (s : TmcState) : Int × TmcState × List TCall :=
  if s.m_opened = false then
    if t.openRes < 0 then (t.openRes, { s with m_opened := false }, [TCall.openDev])
    else connectSteps t { s with m_opened := true } [TCall.openDev]
  else connectSteps t s []

/-- The `TMCC_CHECK_CONNECTED` macro (lines 1215-1227): when not connected,
call `connect` once and give up (returning its code) if it fails or the
session still is not connected. -/
def checkConnected (t : Ftdi) (s : TmcState) :
    Except (Int × TmcState × List TCall) (TmcState × List TCall) :=
  if s.m_connected then Except.ok (s, [])
  else
    let r := connect t s
    if r.1 < 0 ∨ r.2.1.m_connected = false then Except.error r
    else Except.ok (r.2.1, r.2.2)

/-! ## Byte-level codec helpers -/

/-- Read a byte of the receive buffer (`m_rdbuf[i]`); out of range gives 0,
matching the zero-filled scratch buffer. -/
def byteAt (l : List Nat) (i : Nat) : Nat := l.getD i 0

/-- Little-endian `uint16_t` at offset `i` of the receive buffer. -/
def u16At (l : List Nat) (i : Nat) : Nat := byteAt l i + 256 * byteAt l (i + 1)

/-- Little-endian `uint32_t` at offset `i` of the receive buffer. -/
def u32At (l : List Nat) (i : Nat) : Nat :=
  byteAt l i + 256 * byteAt l (i + 1) + 65536 * byteAt l (i + 2) +
    16777216 * byteAt l (i + 3)

/-- Little-endian `int16_t` at offset `i` of the receive buffer
(two's complement). -/
def i16At (l : List Nat) (i : Nat) : Int :=
  if u16At l i < 32768 then (u16At l i : Int) else (u16At l i : Int) - 65536

/-! ## Request writing and response reading -/

/-- Result of one `ftdi_read_data` call: a (possibly empty) chunk of bytes
appended to `m_rdbuf`, or a negative raw code. -/
inductive ReadResult where
  | chunk (bytes : List Nat)
  | err (code : Int)
deriving DecidableEq, Repr

/-- The `do`/`while` loop of `TMCC_READ_RESPONSE` (lines 1329-1343): read
into the tail of the buffer; a negative read returns at once (`-666`
verbatim, otherwise `-200 + raw`); otherwise accumulate and loop while
fewer than `esz` bytes have arrived.  `none` models the loop never
exiting (the oracle list is exhausted with too few bytes accumulated);
the `Nat` counts the reads performed. -/
def readAccum : List ReadResult → List Nat → Nat → Option (Except Int (List Nat) × Nat)
  | [], _, _ => none
  | ReadResult.err c :: _, _, _ =>
      some (Except.error (if c = -666 then c else -200 + c), 1)
  | ReadResult.chunk bs :: rest, acc, esz =>
      if (acc ++ bs).length < esz then
        match readAccum rest (acc ++ bs) esz with
        | none => none
        | some (r, n) => some (r, n + 1)
      else some (Except.ok (acc ++ bs), 1)

/-- The `TMCC_READ_RESPONSE` macro (lines 1325-1354): run the read loop,
then fail with the fixed `-300` when the accumulated count differs from a
nonzero expected length (which, the loop having required at least `esz`
bytes, can only mean an overshoot). -/
def tmccReadResponse (reads : List ReadResult) (esz : Nat) :
    Option (Except Int (List Nat) × Nat) :=
  match readAccum reads [] esz with
  | none => none
  | some (Except.error e, n) => some (Except.error e, n)
  | some (Except.ok acc, n) =>
      if acc.length ≠ esz ∧ 0 < esz then some (Except.error (-300), n)
      else some (Except.ok acc, n)

/-- The `TMCC_WRITE_REQUEST` macro (lines 1299-1309): one 6-byte write;
`-666` is passed through verbatim, any other negative raw code becomes
`-100 + raw`. -/
def tmccWriteRequest (writeRes : Int) : Int × List TCall :=
  (if writeRes < 0 then (if writeRes = -666 then writeRes else -100 + writeRes) else 0,
    [TCall.write 6])

/-- The `TMCC_WRITE_COMMAND` macro (lines 1311-1323): `ftdi_tcioflush`
(result stored into `rv` and immediately overwritten, hence discarded),
sleep for `m_postFlushSleep`, then write `esz` bytes with the same error
mapping as `tmccWriteRequest`. -/
def tmccWriteCommand (flushRes writeRes : Int) (esz : Nat) : Int × List TCall :=
  (if writeRes < 0 then (if writeRes = -666 then writeRes else -100 + writeRes) else 0,
    [TCall.flush, TCall.sleepPost, TCall.write esz])

/-! ## Typed records and enumerations -/

/-- `tmcController::EnableState` (lines 459-462). -/
inductive EnableState where
  | invalid
  | enabled
  | disabled
deriving DecidableEq, Repr

/-- `tmcController::VoltLimit` (lines 599-603). -/
inductive VoltLimit where
  | INVALID
  | V75
  | V100
  | V150
deriving DecidableEq, Repr

/-- `tmcController::HWInfo` (lines 465-519).  `modelNumber` is the byte
content of the decoded `std::string`. -/
structure HWInfo where
  serialNumber : Nat := 0
  modelNumber : List Nat := []
  type : Nat := 0
  fwMin : Int := 0
  fwInt : Int := 0
  fwMaj : Int := 0
  hwVer : Nat := 0
  hwMod : Nat := 0
  nChannels : Nat := 0
deriving DecidableEq, Repr

/-- `tmcController::PZStatus` (lines 527-593), without the wall-clock
`statusTime` member (real time is outside the model). -/
structure PZStatus where
  voltage : Int := 0
  position : Int := 0
  connected : Bool := false
  zeroed : Bool := false
  zeroing : Bool := false
  sgConnected : Bool := false
  pcMode : Bool := false
deriving DecidableEq, Repr

/-- `tmcController::TPZIOSettings` (lines 610-621). -/
structure TPZIOSettings where
  VoltageLimit : VoltLimit := VoltLimit.INVALID
  HubAnalogInput : Nat := 0
deriving DecidableEq, Repr

/-- `tmcController::KMMIParams` (lines 627-645). -/
structure KMMIParams where
  JSMode : Nat := 1
  JSVoltGearBox : Nat := 3
  JSVoltStep : Int := 1
  DirSense : Int := 0
  PresetVolt1 : Int := 0
  PresetVolt2 : Int := 0
  DispBrightness : Nat := 100
  DispTimeout : Nat := 0
  DispDimLevel : Nat := 10
deriving DecidableEq, Repr

/-- The firmware-version line of `HWInfo::dump` (line 1239) prints
`fwMaj`, then `fwMin`, then `fwInt`, dot-separated; this is that line as
the ordered triple of printed numbers. -/
def fwDumpOrder (h : HWInfo) : Int × Int × Int := (h.fwMaj, h.fwMin, h.fwInt)

/-! ## Voltage scaling (`pz_set_outputvolts` / `pz_req_outputvolts`) -/

/-- C++ float-to-integer conversion: truncation toward zero. -/
def ratTrunc (q : ℚ) : Int := if 0 ≤ q then ⌊q⌋ else ⌈q⌉

/-- The encoding of `pz_set_outputvolts` (lines 1503-1510): `ov * 32767`
truncated to `int16_t` when `ov > 0`, else `ov * 32768` truncated. -/
def encodeVolts (v : ℚ) : Int :=
  if 0 < v then ratTrunc (v * 32767) else ratTrunc (v * 32768)

/-- The decoding of `pz_req_outputvolts` (lines 1540-1549):
`raw / 32767.0` when `raw > 0`, else `raw / 32768.0`. -/
def decodeVolts (r : Int) : ℚ :=
  if 0 < r then (r : ℚ) / 32767 else (r : ℚ) / 32768

/-! ## Catalog commands -/

/-- `static_cast<uint8_t>` of `EnableState`. -/
def enableStateCode : EnableState → Nat
  | EnableState.invalid => 0
  | EnableState.enabled => 1
  | EnableState.disabled => 2

/-- `static_cast<uint16_t>` of `VoltLimit`. -/
def voltLimitCode : VoltLimit → Nat
  | VoltLimit.INVALID => 0
  | VoltLimit.V75 => 1
  | VoltLimit.V100 => 2
  | VoltLimit.V150 => 3

/-- `tmcController::mod_set_chanenablestate` (lines 1369-1407): reject
`EnableState::invalid` with `-1000` before anything else; then ensure
connected, write the 6-byte request, sleep `m_postChanEnableSleep`
(`-700` when it throws), and drain with a zero-length read whose outcome
other than a read error is ignored. -/
def mod_set_chanenablestate (t : Ftdi) (reads : List ReadResult) (s : TmcState)
    (chnum : Nat) (ces : EnableState) : Option (Int × TmcState × List TCall) :=
  if ces = EnableState.invalid then some (-1000, s, [])
  else
    match checkConnected t s with
    | Except.error r => some r
    | Except.ok (s1, tr0) =>
      let w := tmccWriteRequest t.writeRes
      if w.1 ≠ 0 then some (w.1, s1, tr0 ++ w.2)
      else if t.chanSleepOk = false then some (-700, s1, tr0 ++ w.2 ++ [TCall.sleepChan])
      else
        match tmccReadResponse reads 0 with
        | none => none
        | some (Except.error e, n) =>
            some (e, s1, tr0 ++ w.2 ++ [TCall.sleepChan] ++ List.replicate n TCall.read)
        | some (Except.ok _, n) =>
            some (0, s1, tr0 ++ w.2 ++ [TCall.sleepChan] ++ List.replicate n TCall.read)

/-- `tmcController::mod_req_chanenablestate` (lines 1410-1442): ensure
connected, write the request, read a 6-byte response, then decode byte 3:
`0x01` is enabled, `0x02` disabled, anything else sets
`EnableState::invalid` and returns `-1000`.  The `ces` out-parameter is
modelled by threading its prior value `ces0`. -/
def mod_req_chanenablestate (t : Ftdi) (reads : List ReadResult) (s : TmcState)
    (chnum : Nat) (ces0 : EnableState) :
    Option (Int × EnableState × TmcState × List TCall) :=
  match checkConnected t s with
  | Except.error (rv, s1, tr) => some (rv, ces0, s1, tr)
  | Except.ok (s1, tr0) =>
    let w := tmccWriteRequest t.writeRes
    if w.1 ≠ 0 then some (w.1, ces0, s1, tr0 ++ w.2)
    else
      match tmccReadResponse reads 6 with
      | none => none
      | some (Except.error e, n) =>
          some (e, ces0, s1, tr0 ++ w.2 ++ List.replicate n TCall.read)
      | some (Except.ok rdbuf, n) =>
          let tr := tr0 ++ w.2 ++ List.replicate n TCall.read
          if byteAt rdbuf 3 = 1 then some (0, EnableState.enabled, s1, tr)
          else if byteAt rdbuf 3 = 2 then some (0, EnableState.disabled, s1, tr)
          else some (-1000, EnableState.invalid, s1, tr)

/-- The model-number decode of `hw_req_info` (lines 1470-1473): copy 8
bytes from offset 10, append a terminating NUL, build a `std::string`
(which stops at the first NUL). -/
def decodeModelNumber (rdbuf : List Nat) : List Nat :=
  ((rdbuf.drop 10).take 8).takeWhile (fun b => b ≠ 0)

/-- `tmcController::hw_req_info` (lines 1457-1485): ensure connected,
write the request, read a 90-byte response and decode the `HWInfo`
fields at their documented offsets. -/
def hw_req_info (t : Ftdi) (reads : List ReadResult) (s : TmcState) (hwi0 : HWInfo) :
    Option (Int × HWInfo × TmcState × List TCall) :=
  match checkConnected t s with
  | Except.error (rv, s1, tr) => some (rv, hwi0, s1, tr)
  | Except.ok (s1, tr0) =>
    let w := tmccWriteRequest t.writeRes
    if w.1 ≠ 0 then some (w.1, hwi0, s1, tr0 ++ w.2)
    else
      match tmccReadResponse reads 90 with
      | none => none
      | some (Except.error e, n) =>
          some (e, hwi0, s1, tr0 ++ w.2 ++ List.replicate n TCall.read)
      | some (Except.ok rdbuf, n) =>
          let hwi : HWInfo :=
            { serialNumber := u32At rdbuf 6
              modelNumber := decodeModelNumber rdbuf
              type := u16At rdbuf 18
              fwMin := (byteAt rdbuf 20 : Int)
              fwInt := (byteAt rdbuf 21 : Int)
              fwMaj := (byteAt rdbuf 22 : Int)
              hwVer := u16At rdbuf 84
              hwMod := u16At rdbuf 86
              nChannels := u16At rdbuf 88 }
          some (0, hwi, s1, tr0 ++ w.2 ++ List.replicate n TCall.read)

/-- `tmcController::pz_set_outputvolts` (lines 1488-1523): reject
`|ov| > 1` with `-980` before anything else; then ensure connected and
send the 10-byte command through `TMCC_WRITE_COMMAND` (the encoded value
`encodeVolts ov` fills bytes 8-9 of the request). -/
def pz_set_outputvolts (t : Ftdi) (s : TmcState) (ov : ℚ) : Int × TmcState × List TCall :=
  if 1 < |ov| then (-980, s, [])
  else
    match checkConnected t s with
    | Except.error r => r
    | Except.ok (s1, tr0) =>
      let w := tmccWriteCommand t.cmdFlushRes t.writeRes 10
      (w.1, s1, tr0 ++ w.2)

/-- `tmcController::pz_req_pzstatusupdate` (lines 1556-1583): ensure
connected, write the request, read a 16-byte response; decode voltage and
position as `int16_t` at offsets 8 and 10, and the status bits (`uint32_t`
at offset 12) with masks 0x1, 0x10, 0x20, 0x100, 0x400. -/
def pz_req_pzstatusupdate (t : Ftdi) (reads : List ReadResult) (s : TmcState)
    (pzs0 : PZStatus) : Option (Int × PZStatus × TmcState × List TCall) :=
  match checkConnected t s with
  | Except.error (rv, s1, tr) => some (rv, pzs0, s1, tr)
  | Except.ok (s1, tr0) =>
    let w := tmccWriteRequest t.writeRes
    if w.1 ≠ 0 then some (w.1, pzs0, s1, tr0 ++ w.2)
    else
      match tmccReadResponse reads 16 with
      | none => none
      | some (Except.error e, n) =>
          some (e, pzs0, s1, tr0 ++ w.2 ++ List.replicate n TCall.read)
      | some (Except.ok rdbuf, n) =>
          let bits := u32At rdbuf 12
          let pzs : PZStatus :=
            { voltage := i16At rdbuf 8
              position := i16At rdbuf 10
              connected := Nat.land bits 0x1 != 0
              zeroed := Nat.land bits 0x10 != 0
              zeroing := Nat.land bits 0x20 != 0
              sgConnected := Nat.land bits 0x100 != 0
              pcMode := Nat.land bits 0x400 != 0 }
          some (0, pzs, s1, tr0 ++ w.2 ++ List.replicate n TCall.read)

/-- `tmcController::pz_set_tpz_dispsettings` (lines 1586-1599): ensure
connected, send the 8-byte command through `TMCC_WRITE_COMMAND`. -/
def pz_set_tpz_dispsettings (t : Ftdi) (s : TmcState) (dispint : Nat) :
    Int × TmcState × List TCall :=
  match checkConnected t s with
  | Except.error r => r
  | Except.ok (s1, tr0) =>
    let w := tmccWriteCommand t.cmdFlushRes t.writeRes 8
    (w.1, s1, tr0 ++ w.2)

/-- `tmcController::pz_set_tpz_iosettings` (lines 1619-1644): reject
`VoltLimit::INVALID` with `-1000` before anything else; then ensure
connected and send the 16-byte command through `TMCC_WRITE_COMMAND`. -/
def pz_set_tpz_iosettings (t : Ftdi) (s : TmcState) (tios : TPZIOSettings) :
    Int × TmcState × List TCall :=
  if tios.VoltageLimit = VoltLimit.INVALID then (-1000, s, [])
  else
    match checkConnected t s with
    | Except.error r => r
    | Except.ok (s1, tr0) =>
      let w := tmccWriteCommand t.cmdFlushRes t.writeRes 16
      (w.1, s1, tr0 ++ w.2)

/-- `tmcController::pz_req_tpz_iosettings` (lines 1646-1680): ensure
connected, write the request, read a 16-byte response; decode the voltage
limit code at offset 8 (1, 2, 3 map to V75, V100, V150, anything else to
`VoltLimit::INVALID`) and the hub analog input at offset 10, then
return 0. -/
def pz_req_tpz_iosettings (t : Ftdi) (reads : List ReadResult) (s : TmcState)
    (tios0 : TPZIOSettings) : Option (Int × TPZIOSettings × TmcState × List TCall) :=
  match checkConnected t s with
  | Except.error (rv, s1, tr) => some (rv, tios0, s1, tr)
  | Except.ok (s1, tr0) =>
    let w := tmccWriteRequest t.writeRes
    if w.1 ≠ 0 then some (w.1, tios0, s1, tr0 ++ w.2)
    else
      match tmccReadResponse reads 16 with
      | none => none
      | some (Except.error e, n) =>
          some (e, tios0, s1, tr0 ++ w.2 ++ List.replicate n TCall.read)
      | some (Except.ok rdbuf, n) =>
          let vl := u16At rdbuf 8
          let lim :=
            if vl = 1 then VoltLimit.V75
            else if vl = 2 then VoltLimit.V100
            else if vl = 3 then VoltLimit.V150
            else VoltLimit.INVALID
          some (0, { VoltageLimit := lim, HubAnalogInput := u16At rdbuf 10 }, s1,
            tr0 ++ w.2 ++ List.replicate n TCall.read)

/-- `tmcController::kpz_set_kcubemmiparams` (lines 1682-1712): ensure
connected, send the 40-byte command through `TMCC_WRITE_COMMAND`. -/
def kpz_set_kcubemmiparams (t : Ftdi) (s : TmcState) (kmp : KMMIParams) :
    Int × TmcState × List TCall :=
  match checkConnected t s with
  | Except.error r => r
  | Except.ok (s1, tr0) =>
    let w := tmccWriteCommand t.cmdFlushRes t.writeRes 40
    (w.1, s1, tr0 ++ w.2)

/-! ## Concrete fixtures -/

/-- A transport on which every operation succeeds. -/
def tAllOk : Ftdi :=
  { openRes := 0, closeRes := 0, chipidRes := 0, chipidVal := 77, baudRes := 0,
    lineRes := 0, preSleepOk := true, flushRes := 0, postSleepOk := true,
    resetRes := 0, flowRes := 0, rtsRes := 0, cmdFlushRes := 0, writeRes := 6,
    chanSleepOk := true }

/-- The freshly constructed session: closed, not connected. -/
def initState : TmcState := { m_opened := false, m_connected := false, m_chipid := 0 }

/-- An opened but not yet connected session. -/
def sOpened : TmcState := { m_opened := true, m_connected := false, m_chipid := 0 }

/-- A connected session. -/
def sConn : TmcState := { m_opened := true, m_connected := true, m_chipid := 77 }

/-! ## Claim C1: voltage round-trip and out-of-range rejection -/

/-- Truncation toward zero of a nonpositive rational is its ceiling. -/
theorem ratTrunc_of_nonpos {q : ℚ} (hq : q ≤ 0) : ratTrunc q = ⌈q⌉ := by
  unfold ratTrunc
  split
  · have h0 : q = 0 := le_antisymm hq (by assumption)
    simp [h0]
  · rfl

/-- C1: for every `v` with `|v| ≤ 1`, decoding the encoded value differs
from `v` by at most one quantization step (`1/32767` when `v > 0`,
`1/32768` when `v ≤ 0`); and for every `v` with `|v| > 1`,
`pz_set_outputvolts` returns exactly `-980`, leaves the state unchanged
and performs no transport call at all. -/
theorem C1_voltage_roundtrip :
    (∀ v : ℚ, |v| ≤ 1 →
      (0 < v → |decodeVolts (encodeVolts v) - v| ≤ 1 / 32767) ∧
      (v ≤ 0 → |decodeVolts (encodeVolts v) - v| ≤ 1 / 32768)) ∧
    (∀ (t : Ftdi) (s : TmcState) (v : ℚ), 1 < |v| →
      pz_set_outputvolts t s v = (-980, s, [])) := by
  constructor
  · intro v _
    constructor
    · intro hpos
      have hx : (0 : ℚ) ≤ v * 32767 := by positivity
      have henc : encodeVolts v = ⌊v * 32767⌋ := by
        simp [encodeVolts, ratTrunc, hpos, hx]
      have h1 : ((⌊v * 32767⌋ : Int) : ℚ) ≤ v * 32767 := Int.floor_le _
      have h2 : v * 32767 - 1 < ((⌊v * 32767⌋ : Int) : ℚ) := Int.sub_one_lt_floor _
      by_cases hpe : 0 < ⌊v * 32767⌋
      · have hd : decodeVolts (encodeVolts v) = ((⌊v * 32767⌋ : Int) : ℚ) / 32767 := by
          simp [decodeVolts, henc, hpe]
        rw [hd, abs_le]
        constructor <;> [linarith; linarith]
      · have hnn : 0 ≤ ⌊v * 32767⌋ := Int.floor_nonneg.mpr hx
        have he0 : ⌊v * 32767⌋ = 0 := by omega
        have hd : decodeVolts (encodeVolts v) = 0 := by
          simp [decodeVolts, henc, he0]
        rw [hd, zero_sub, abs_neg, abs_of_pos hpos]
        rw [he0] at h2
        push_cast at h2
        linarith
    · intro hnp
      have hx : v * 32768 ≤ 0 := by nlinarith
      have henc : encodeVolts v = ⌈v * 32768⌉ := by
        have : ¬ (0 : ℚ) < v := not_lt.mpr hnp
        simp [encodeVolts, this, ratTrunc_of_nonpos hx]
      have h1 : v * 32768 ≤ ((⌈v * 32768⌉ : Int) : ℚ) := Int.le_ceil _
      have h2 : ((⌈v * 32768⌉ : Int) : ℚ) < v * 32768 + 1 := Int.ceil_lt_add_one _
      have hle : ⌈v * 32768⌉ ≤ 0 := Int.ceil_le.mpr (by exact_mod_cast hx)
      have hd : decodeVolts (encodeVolts v) = ((⌈v * 32768⌉ : Int) : ℚ) / 32768 := by
        have : ¬ 0 < ⌈v * 32768⌉ := not_lt.mpr hle
        simp [decodeVolts, henc, this]
      rw [hd, abs_le]
      constructor <;> [linarith; linarith]
  · intro t s v hv
    simp [pz_set_outputvolts, hv]

/-- C1 witness: the round-trip bound at `v = 1/3`, and the rejection of
`v = 2` on a concrete transport and state. -/
theorem C1_voltage_roundtrip_witness :
    |decodeVolts (encodeVolts (1 / 3 : ℚ)) - 1 / 3| ≤ 1 / 32767 ∧
    pz_set_outputvolts tAllOk sConn 2 = (-980, sConn, []) :=
  ⟨(C1_voltage_roundtrip.1 (1 / 3) (by rw [abs_le]; norm_num)).1 (by norm_num),
    C1_voltage_roundtrip.2 tAllOk sConn 2 (by norm_num)⟩

/-! ## Claim C2: connect error offset bands -/

/-- C2: on an opened session whose other transport steps succeed, each
failing step of `connect` with raw code `r < 0` yields the documented
offset band and stops right there (the trace ends at the failing step):
chip id `-20 + r`, baud `-30 + r`, line `-40 + r`, pre-flush sleep `-49`,
flush `-50 + r`, post-flush sleep `-59`, reset `-60 + r`, flow control
`-70 + r`, RTS `-80 + r`. -/
theorem C2_connect_error_offsets (t : Ftdi) (s : TmcState)
    (hs : s.m_opened = true)
    (hc : ¬ t.chipidRes < 0) (hb : ¬ t.baudRes < 0) (hl : ¬ t.lineRes < 0)
    (hpre : t.preSleepOk = true) (hf : ¬ t.flushRes < 0) (hpost : t.postSleepOk = true)
    (hre : ¬ t.resetRes < 0) (hfc : ¬ t.flowRes < 0)
    (r : Int) (hneg : r < 0) :
    connect { t with chipidRes := r } s = (-20 + r, s, [TCall.readChipId]) ∧
    connect { t with baudRes := r } s =
      (-30 + r, { s with m_chipid := t.chipidVal }, [TCall.readChipId, TCall.setBaud]) ∧
    connect { t with lineRes := r } s =
      (-40 + r, { s with m_chipid := t.chipidVal },
        [TCall.readChipId, TCall.setBaud, TCall.setLine]) ∧
    connect { t with preSleepOk := false } s =
      (-49, { s with m_chipid := t.chipidVal },
        [TCall.readChipId, TCall.setBaud, TCall.setLine, TCall.sleepPre]) ∧
    connect { t with flushRes := r } s =
      (-50 + r, { s with m_chipid := t.chipidVal },
        [TCall.readChipId, TCall.setBaud, TCall.setLine, TCall.sleepPre, TCall.flush]) ∧
    connect { t with postSleepOk := false } s =
      (-59, { s with m_chipid := t.chipidVal },
        [TCall.readChipId, TCall.setBaud, TCall.setLine, TCall.sleepPre, TCall.flush,
          TCall.sleepPost]) ∧
    connect { t with resetRes := r } s =
      (-60 + r, { s with m_chipid := t.chipidVal },
        [TCall.readChipId, TCall.setBaud, TCall.setLine, TCall.sleepPre, TCall.flush,
          TCall.sleepPost, TCall.reset]) ∧
    connect { t with flowRes := r } s =
      (-70 + r, { s with m_chipid := t.chipidVal },
        [TCall.readChipId, TCall.setBaud, TCall.setLine, TCall.sleepPre, TCall.flush,
          TCall.sleepPost, TCall.reset, TCall.setFlow]) ∧
    connect { t with rtsRes := r } s =
      (-80 + r, { s with m_chipid := t.chipidVal },
        [TCall.readChipId, TCall.setBaud, TCall.setLine, TCall.sleepPre, TCall.flush,
          TCall.sleepPost, TCall.reset, TCall.setFlow, TCall.setRTS]) := by
  refine ⟨?_, ?_, ?_, ?_, ?_, ?_, ?_, ?_, ?_⟩ <;>
    simp [connect, connectSteps, hs, hc, hb, hl, hpre, hf, hpost, hre, hfc, hneg]

/-- C2 witness: a chip-id failure with raw `-5` returns exactly `-25`, an
RTS failure with raw `-3` returns exactly `-83`. -/
theorem C2_connect_error_offsets_witness :
    (connect { tAllOk with chipidRes := -5 } sOpened).1 = -25 ∧
    (connect { tAllOk with rtsRes := -3 } sOpened).1 = -83 := by
  have h1 := (C2_connect_error_offsets tAllOk sOpened rfl (by decide) (by decide)
    (by decide) rfl (by decide) rfl (by decide) (by decide) (-5) (by decide)).1
  have h2 := (C2_connect_error_offsets tAllOk sOpened rfl (by decide) (by decide)
    (by decide) rfl (by decide) rfl (by decide) (by decide)
    (-3) (by decide)).2.2.2.2.2.2.2.2
  rw [h1, h2]
  constructor <;> norm_num

/-! ## Claims C3 and C4: state-machine invariants -/

/-- What every branch of `connectSteps` does to the session flags: a zero
result means `m_connected` was set (and the chip id recorded); a nonzero
result leaves `m_connected` as it was; `m_opened` is never touched. -/
theorem connectSteps_state (t : Ftdi) (s : TmcState) (tr0 : List TCall) :
    ((connectSteps t s tr0).1 = 0 →
      (connectSteps t s tr0).2.1.m_connected = true ∧
      (connectSteps t s tr0).2.1.m_chipid = t.chipidVal) ∧
    ((connectSteps t s tr0).1 ≠ 0 →
      (connectSteps t s tr0).2.1.m_connected = s.m_connected) ∧
    (connectSteps t s tr0).2.1.m_opened = s.m_opened := by
  unfold connectSteps
  split
  case isTrue h => refine ⟨fun h0 => absurd h0 (by omega), fun _ => rfl, rfl⟩
  case isFalse h =>
  split
  case isTrue h2 => exact ⟨fun h0 => absurd h0 (by omega), fun _ => rfl, rfl⟩
  case isFalse h2 =>
  split
  case isTrue h3 => exact ⟨fun h0 => absurd h0 (by omega), fun _ => rfl, rfl⟩
  case isFalse h3 =>
  split
  case isTrue h4 => exact ⟨fun h0 => absurd h0 (by omega), fun _ => rfl, rfl⟩
  case isFalse h4 =>
  split
  case isTrue h5 => exact ⟨fun h0 => absurd h0 (by omega), fun _ => rfl, rfl⟩
  case isFalse h5 =>
  split
  case isTrue h6 => exact ⟨fun h0 => absurd h0 (by omega), fun _ => rfl, rfl⟩
  case isFalse h6 =>
  split
  case isTrue h7 => exact ⟨fun h0 => absurd h0 (by omega), fun _ => rfl, rfl⟩
  case isFalse h7 =>
  split
  case isTrue h8 => exact ⟨fun h0 => absurd h0 (by omega), fun _ => rfl, rfl⟩
  case isFalse h8 =>
  split
  case isTrue h9 => exact ⟨fun h0 => absurd h0 (by omega), fun _ => rfl, rfl⟩
  case isFalse h9 => exact ⟨fun _ => ⟨rfl, rfl⟩, fun hne => absurd rfl hne, rfl⟩

/-- C3 counterexample: from the freshly constructed session, a successful
`connect` reaches the Connected state; calling `connect` again on that
state with a failing chip-id read returns a nonzero code, yet the session
is still Connected — the claim as stated is false. -/
theorem C3_counterexample :
    (connect tAllOk initState).1 = 0 ∧
    (connect tAllOk initState).2.1.m_connected = true ∧
    (connect { tAllOk with chipidRes := -1 } (connect tAllOk initState).2.1).1 ≠ 0 ∧
    (connect { tAllOk with chipidRes := -1 }
      (connect tAllOk initState).2.1).2.1.m_connected = true := by
  refine ⟨rfl, rfl, ?_, rfl⟩
  decide

/-- C3 amended: after a `connect` call entered from a state that is not
already Connected, a nonzero return leaves the session not Connected (the
code never clears `m_connected`, so a failing re-connect of an already
Connected session keeps it Connected); after any `connect` returning 0 the
session is Connected and `m_chipid` holds the value delivered by the
chip-id read step. -/
theorem C3_amended (t : Ftdi) (s : TmcState) :
    (s.m_connected = false → (connect t s).1 ≠ 0 →
      (connect t s).2.1.m_connected = false) ∧
    ((connect t s).1 = 0 →
      (connect t s).2.1.m_connected = true ∧ (connect t s).2.1.m_chipid = t.chipidVal) := by
  by_cases hop : s.m_opened = false
  · by_cases hor : t.openRes < 0
    · constructor
      · intro h0 _
        simp [connect, hop, hor, h0]
      · intro h0
        simp [connect, hop, hor] at h0
        omega
    · have hst := connectSteps_state t { s with m_opened := true } [TCall.openDev]
      constructor
      · intro h0 hne
        simp [connect, hop, hor] at hne ⊢
        rw [hst.2.1 hne]
        simpa using h0
      · intro h0
        simp [connect, hop, hor] at h0 ⊢
        exact hst.1 h0
  · have hst := connectSteps_state t s []
    constructor
    · intro h0 hne
      simp [connect, hop] at hne ⊢
      rw [hst.2.1 hne]
      exact h0
    · intro h0
      simp [connect, hop] at h0 ⊢
      exact hst.1 h0

/-- C3 amended witness: a failing connect from an opened, not-connected
session leaves it not Connected; a successful connect from the same
session makes it Connected with the chip id recorded. -/
theorem C3_amended_witness :
    (connect { tAllOk with baudRes := -2 } sOpened).2.1.m_connected = false ∧
    (connect tAllOk sOpened).2.1.m_connected = true ∧
    (connect tAllOk sOpened).2.1.m_chipid = tAllOk.chipidVal :=
  ⟨(C3_amended { tAllOk with baudRes := -2 } sOpened).1 rfl (by decide),
    ((C3_amended tAllOk sOpened).2 (by decide)).1,
    ((C3_amended tAllOk sOpened).2 (by decide)).2⟩

/-- C4 counterexample: the Connected state reached by a successful
`connect` from the fresh session satisfies `Connected ⇒ Opened`; a failing
`open` call on that state clears `m_opened` but not `m_connected`, so the
invariant is broken — the claim that every public operation preserves it
in every reachable state is false. -/
theorem C4_counterexample :
    (connect tAllOk initState).2.1.m_connected = true ∧
    (connect tAllOk initState).2.1.m_opened = true ∧
    (openDevice { tAllOk with openRes := -1 }
      (connect tAllOk initState).2.1).2.1.m_connected = true ∧
    (openDevice { tAllOk with openRes := -1 }
      (connect tAllOk initState).2.1).2.1.m_opened = false := by
  refine ⟨rfl, rfl, rfl, rfl⟩

/-- C4 amended: `Connected ⇒ Opened` holds in the initial state and is
preserved, for every transport outcome, by `connect` and `close` from any
state satisfying it, and by `open` from any state that is not Connected;
it is not preserved by a failing `open` on a Connected session. -/
theorem C4_amended :
    (initState.m_connected = true → initState.m_opened = true) ∧
    (∀ (t : Ftdi) (s : TmcState), (s.m_connected = true → s.m_opened = true) →
      ((connect t s).2.1.m_connected = true → (connect t s).2.1.m_opened = true) ∧
      ((closeDevice t s).2.1.m_connected = true → (closeDevice t s).2.1.m_opened = true) ∧
      (s.m_connected = false →
        ((openDevice t s).2.1.m_connected = true → (openDevice t s).2.1.m_opened = true))) := by
  refine ⟨fun h => by simpa using h, fun t s hinv => ⟨?_, ?_, ?_⟩⟩
  · by_cases hop : s.m_opened = false
    · by_cases hor : t.openRes < 0
      · intro h
        simp [connect, hop, hor] at h ⊢
        exact absurd (hinv h) (by simp [hop])
      · intro _
        have hst := connectSteps_state t { s with m_opened := true } [TCall.openDev]
        simp [connect, hop, hor]
        rw [hst.2.2]
    · intro _
      have hst := connectSteps_state t s []
      simp [connect, hop]
      rw [hst.2.2]
      simpa using hop
  · by_cases hop : s.m_opened = false
    · simpa [closeDevice, hop] using hinv
    · by_cases hcl : t.closeRes < 0
      · simp [closeDevice, hop, hcl]
      · simp [closeDevice, hop, hcl]
  · intro hnc
    by_cases hor : t.openRes < 0 <;> simp [openDevice, hor, hnc]

/-- C4 amended witness: on concrete states and transports, `connect`
yields an Opened session, a failing `close` on the connected session
keeps it Opened, and a failing `open` on a not-connected session trivially
preserves the invariant. -/
theorem C4_amended_witness :
    (connect tAllOk sOpened).2.1.m_opened = true ∧
    (closeDevice { tAllOk with closeRes := -1 } sConn).2.1.m_opened = true :=
  ⟨((C4_amended.2 tAllOk sOpened (by decide)).1) (by decide),
    ((C4_amended.2 { tAllOk with closeRes := -1 } sConn (by decide)).2.1) (by decide)⟩

/-! ## Claim C5: the response-length check -/

/-- C5: the `TMCC_READ_RESPONSE` loop only exits once at least `esz` bytes
have accumulated, so a stream delivering `N-1` bytes and then a read error
`-1` returns `-201` (the read-failure band, not `-300`), a stream that
simply stops delivering (zero-byte reads / exhausted oracle) never exits
the loop, and `-300` is produced exactly when the count overshoots the
expected length. -/
theorem C5_read_response_short_stream :
    tmccReadResponse [ReadResult.chunk [9, 9, 9, 9, 9], ReadResult.err (-1)] 6 =
      some (Except.error (-201), 2) ∧
    tmccReadResponse [ReadResult.chunk [9, 9, 9, 9, 9]] 6 = none ∧
    tmccReadResponse [ReadResult.chunk [9, 9, 9, 9, 9], ReadResult.chunk []] 6 = none ∧
    tmccReadResponse [ReadResult.chunk [9, 9, 9, 9, 9, 9, 9]] 6 =
      some (Except.error (-300), 1) := by
  refine ⟨by decide, by decide, by decide, by decide⟩

/-! ## Claim C6: channel-enable enumerator validation -/

/-- C6: decoding a channel-enable response whose byte 3 is neither `0x01`
nor `0x02` sets the out-parameter to `EnableState::invalid` and returns
exactly `-1000`; and `mod_set_chanenablestate` called with the invalid
enumerator returns `-1000` with an empty transport trace (no connect
attempt, no write) and the state unchanged. -/
theorem C6_enum_validation :
    (∀ (t : Ftdi) (s : TmcState), s.m_connected = true → ¬ t.writeRes < 0 →
      ∀ (chnum : Nat) (ces0 : EnableState) (x0 x1 x2 b x4 x5 : Nat), b ≠ 1 → b ≠ 2 →
        mod_req_chanenablestate t [ReadResult.chunk [x0, x1, x2, b, x4, x5]] s chnum ces0 =
          some (-1000, EnableState.invalid, s, [TCall.write 6, TCall.read])) ∧
    (∀ (t : Ftdi) (reads : List ReadResult) (s : TmcState) (chnum : Nat),
      mod_set_chanenablestate t reads s chnum EnableState.invalid = some (-1000, s, [])) := by
  constructor
  · intro t s hconn hw chnum ces0 x0 x1 x2 b x4 x5 hb1 hb2
    simp [mod_req_chanenablestate, checkConnected, hconn, tmccWriteRequest, hw,
      tmccReadResponse, readAccum, byteAt, hb1, hb2]
  · intro t reads s chnum
    simp [mod_set_chanenablestate]

/-- C6 witness: byte 3 equal to `0x03` on a concrete connected session,
and a concrete invalid-enumerator set call. -/
theorem C6_enum_validation_witness :
    mod_req_chanenablestate tAllOk [ReadResult.chunk [0, 0, 0, 3, 0, 0]] sConn 1
        EnableState.enabled =
      some (-1000, EnableState.invalid, sConn, [TCall.write 6, TCall.read]) ∧
    mod_set_chanenablestate tAllOk [] sConn 1 EnableState.invalid =
      some (-1000, sConn, []) :=
  ⟨C6_enum_validation.1 tAllOk sConn rfl (by decide) 1 EnableState.enabled 0 0 0 3 0 0
      (by decide) (by decide),
    C6_enum_validation.2 tAllOk [] sConn 1⟩

/-! ## Claim C7: voltage-limit enumerator validation -/

/-- A 16-byte response whose voltage-limit field (`uint16_t` at offset 8)
is 7 — not a known enumerator — and whose hub analog input is 9. -/
def ioFixture : List Nat := [0, 0, 0, 0, 0, 0, 0, 0, 7, 0, 9, 0, 0, 0, 0, 0]

/-- C7 counterexample: `pz_req_tpz_iosettings` decoding an unknown
voltage-limit wire value stores `VoltLimit::INVALID` but returns 0, not
the claimed `-1000`. -/
theorem C7_counterexample :
    pz_req_tpz_iosettings tAllOk [ReadResult.chunk ioFixture] sConn {} =
      some (0, { VoltageLimit := VoltLimit.INVALID, HubAnalogInput := 9 }, sConn,
        [TCall.write 6, TCall.read]) ∧
    Option.map (fun x => x.1)
        (pz_req_tpz_iosettings tAllOk [ReadResult.chunk ioFixture] sConn {}) ≠
      some (-1000) := by
  refine ⟨by decide, by decide⟩

/-- C7 amended: `pz_set_tpz_iosettings` called with `VoltLimit::INVALID`
returns `-1000` with state unchanged and an empty transport trace; and
`pz_req_tpz_iosettings` decoding a wire value other than 1, 2 or 3 for
the voltage-limit field yields `VoltLimit::INVALID` in the record while
the call itself returns 0 (the invalid value, not the return code, is the
error signal). -/
theorem C7_voltlimit_validation :
    (∀ (t : Ftdi) (s : TmcState) (tios : TPZIOSettings),
      tios.VoltageLimit = VoltLimit.INVALID →
      pz_set_tpz_iosettings t s tios = (-1000, s, [])) ∧
    (∀ (t : Ftdi) (s : TmcState) (l : List Nat) (tios0 : TPZIOSettings),
      s.m_connected = true → ¬ t.writeRes < 0 → l.length = 16 →
      u16At l 8 ≠ 1 → u16At l 8 ≠ 2 → u16At l 8 ≠ 3 →
      pz_req_tpz_iosettings t [ReadResult.chunk l] s tios0 =
        some (0, { VoltageLimit := VoltLimit.INVALID, HubAnalogInput := u16At l 10 }, s,
          [TCall.write 6, TCall.read])) := by
  constructor
  · intro t s tios h
    simp [pz_set_tpz_iosettings, h]
  · intro t s l tios0 hconn hw hlen h1 h2 h3
    simp [pz_req_tpz_iosettings, checkConnected, hconn, tmccWriteRequest, hw,
      tmccReadResponse, readAccum, hlen, h1, h2, h3]

/-- C7 witness: the set rejection and the decode-to-INVALID at the
concrete fixture. -/
theorem C7_voltlimit_validation_witness :
    pz_set_tpz_iosettings tAllOk sConn {} = (-1000, sConn, []) ∧
    pz_req_tpz_iosettings tAllOk [ReadResult.chunk ioFixture] sConn {} =
      some (0, { VoltageLimit := VoltLimit.INVALID, HubAnalogInput := u16At ioFixture 10 },
        sConn, [TCall.write 6, TCall.read]) :=
  ⟨C7_voltlimit_validation.1 tAllOk sConn {} rfl,
    C7_voltlimit_validation.2 tAllOk sConn ioFixture {} rfl (by decide) (by decide)
      (by decide) (by decide) (by decide)⟩

/-! ## Claim C8: piezo status-bits decomposition -/

/-- A 16-byte status response whose `statusBits` field (`uint32_t` at
offset 12, little-endian) is `0x0431`. -/
def pzFixture : List Nat := [0, 0, 0, 0, 0, 0, 0, 0, 0, 0, 0, 0, 0x31, 0x04, 0, 0]

/-- C8 counterexample: `0x0431` has bits 0, 4, 5 and 10 set and bit 8
clear, so the decoded record is `connected, zeroed, zeroing, pcMode` true
and `sgConnected` false — not the claimed
`zeroed = zeroing = false, sgConnected = true`. -/
theorem C8_counterexample :
    Option.map
        (fun x => (x.2.1.connected, x.2.1.zeroed, x.2.1.zeroing, x.2.1.sgConnected,
          x.2.1.pcMode))
        (pz_req_pzstatusupdate tAllOk [ReadResult.chunk pzFixture] sConn {}) =
      some (true, true, true, false, true) ∧
    Option.map
        (fun x => (x.2.1.connected, x.2.1.zeroed, x.2.1.zeroing, x.2.1.sgConnected,
          x.2.1.pcMode))
        (pz_req_pzstatusupdate tAllOk [ReadResult.chunk pzFixture] sConn {}) ≠
      some (true, false, false, true, true) := by
  refine ⟨by decide, by decide⟩

/-- C8 amended: `pz_req_pzstatusupdate` on the 16-byte fixture with
`statusBits = 0x0431` yields `connected = true`, `zeroed = true`,
`zeroing = true`, `sgConnected = false`, `pcMode = true` (masks 0x1,
0x10, 0x20, 0x100, 0x400 of the bits at offset 12). -/
theorem C8_amended :
    pz_req_pzstatusupdate tAllOk [ReadResult.chunk pzFixture] sConn {} =
      some (0,
        { voltage := 0, position := 0, connected := true, zeroed := true, zeroing := true,
          sgConnected := false, pcMode := true }, sConn, [TCall.write 6, TCall.read]) := by
  decide

/-! ## Claim C9: hardware-info decoding -/

/-- A 90-byte hardware-info response: serial `29252712` at offset 6
(little-endian bytes 104, 92, 190, 1), the 8 ASCII bytes of the model
string `KPZ101` followed by two spaces at offset 10
(75, 80, 90, 49, 48, 49, 32, 32), and firmware bytes 1, 2, 3 at offsets
20, 21, 22. -/
def hwFixture : List Nat :=
  List.replicate 6 0 ++ [104, 92, 190, 1] ++ [75, 80, 90, 49, 48, 49, 32, 32] ++
    [0, 0] ++ [1, 2, 3] ++ List.replicate 67 0

/-- C9 counterexample: the decoded model number keeps the two trailing
spaces (NUL termination only cuts at a NUL byte, and there is none among
the 8 bytes), so it is the 8 bytes of the padded string and not the 6
bytes of a trimmed one; and the dump line prints `fwMaj.fwMin.fwInt`,
which at this fixture is 3, 1, 2 — not the claimed 3, 2, 1. -/
theorem C9_counterexample :
    Option.map (fun x => (x.2.1.serialNumber, x.2.1.modelNumber, fwDumpOrder x.2.1))
        (hw_req_info tAllOk [ReadResult.chunk hwFixture] sConn {}) =
      some (29252712, [75, 80, 90, 49, 48, 49, 32, 32], (3, 1, 2)) ∧
    Option.map (fun x => x.2.1.modelNumber)
        (hw_req_info tAllOk [ReadResult.chunk hwFixture] sConn {}) ≠
      some [75, 80, 90, 49, 48, 49] ∧
    Option.map (fun x => fwDumpOrder x.2.1)
        (hw_req_info tAllOk [ReadResult.chunk hwFixture] sConn {}) ≠
      some (3, 2, 1) := by
  refine ⟨by decide, by decide, by decide⟩

/-- C9 amended: `hw_req_info` on the 90-byte fixture yields serial number
`29252712`, the 8-byte model string with its trailing spaces, firmware
fields `fwMin = 1`, `fwInt = 2`, `fwMaj = 3`, and the dump line renders
the firmware version in the order major, minor, interim, i.e. 3, 1, 2. -/
theorem C9_amended :
    hw_req_info tAllOk [ReadResult.chunk hwFixture] sConn {} =
      some (0,
        { serialNumber := 29252712, modelNumber := [75, 80, 90, 49, 48, 49, 32, 32],
          type := 0, fwMin := 1, fwInt := 2, fwMaj := 3, hwVer := 0, hwMod := 0,
          nChannels := 0 }, sConn, [TCall.write 6, TCall.read]) ∧
    Option.map (fun x => fwDumpOrder x.2.1)
        (hw_req_info tAllOk [ReadResult.chunk hwFixture] sConn {}) = some (3, 1, 2) := by
  refine ⟨by decide, by decide⟩

/-! ## Claim C10: set commands flush first and discard the flush result -/

/-- C10: each payload-carrying set command, on a connected session with
validated arguments, performs flush, then the post-flush sleep, then the
write — and nothing else; and its entire result is unchanged when the
flush outcome `cmdFlushRes` is replaced by any `f`, because
`TMCC_WRITE_COMMAND` overwrites the flush result before testing it. -/
theorem C10_set_commands_flush_discarded (t : Ftdi) (s : TmcState)
    (hconn : s.m_connected = true) (f : Int) (v : ℚ) (hv : ¬ 1 < |v|) (d : Nat)
    (tios : TPZIOSettings) (htios : ¬ tios.VoltageLimit = VoltLimit.INVALID)
    (kmp : KMMIParams) :
    (pz_set_outputvolts { t with cmdFlushRes := f } s v = pz_set_outputvolts t s v ∧
      (pz_set_outputvolts t s v).2.2 = [TCall.flush, TCall.sleepPost, TCall.write 10]) ∧
    (pz_set_tpz_dispsettings { t with cmdFlushRes := f } s d = pz_set_tpz_dispsettings t s d ∧
      (pz_set_tpz_dispsettings t s d).2.2 = [TCall.flush, TCall.sleepPost, TCall.write 8]) ∧
    (pz_set_tpz_iosettings { t with cmdFlushRes := f } s tios = pz_set_tpz_iosettings t s tios ∧
      (pz_set_tpz_iosettings t s tios).2.2 = [TCall.flush, TCall.sleepPost, TCall.write 16]) ∧
    (kpz_set_kcubemmiparams { t with cmdFlushRes := f } s kmp = kpz_set_kcubemmiparams t s kmp ∧
      (kpz_set_kcubemmiparams t s kmp).2.2 =
        [TCall.flush, TCall.sleepPost, TCall.write 40]) := by
  refine ⟨⟨?_, ?_⟩, ⟨?_, ?_⟩, ⟨?_, ?_⟩, ⟨?_, ?_⟩⟩ <;>
    simp [pz_set_outputvolts, pz_set_tpz_dispsettings, pz_set_tpz_iosettings,
      kpz_set_kcubemmiparams, checkConnected, hconn, hv, htios, tmccWriteCommand]

/-- C10 witness: `pz_set_outputvolts` at `v = 1/2` on a connected session
gives the same outcome whether the flush succeeds or fails with `-7`, and
its trace is flush, sleep, then the 10-byte write. -/
theorem C10_set_commands_flush_discarded_witness :
    pz_set_outputvolts { tAllOk with cmdFlushRes := -7 } sConn (1 / 2) =
      pz_set_outputvolts tAllOk sConn (1 / 2) ∧
    (pz_set_outputvolts tAllOk sConn (1 / 2)).2.2 =
      [TCall.flush, TCall.sleepPost, TCall.write 10] :=
  (C10_set_commands_flush_discarded tAllOk sConn rfl (-7) (1 / 2)
    (by rw [not_lt, abs_le]; norm_num) 3 { VoltageLimit := VoltLimit.V75 }
    (by decide) {}).1

end TmcC
